import Mathlib

/-!
Verification of the lead-generation pipeline in `openailead.py`.

The program is a Streamlit application wired around four pure-ish pieces:
`search_tavily_leads` (Tavily source connector), `summarize_leads` and
`generate_outreach_email` (OpenAI enrichment calls), `save_lead` (TinyDB
record store insert), and the `main` UI handlers (search button, per-candidate
callbacks, clear-all button).  The outbound HTTP clients (Tavily search,
OpenAI chat completion) are modelled as explicit function parameters; the
wall clock consumed by `datetime.now()` is an explicit `DateTime` argument;
the TinyDB table and the Streamlit session state are explicit values threaded
through the handlers.  Python dictionaries whose values are provider strings
are modelled as association lists.
-/

/-- A Python dict with string keys and string values (a candidate-lead /
company record as it appears in the Tavily `results` payload). -/
abbrev Dict := List (String × String)

/-- Values stored in a lead entry written by `save_lead`: either a plain
string or an embedded company dict. -/
inductive PVal where
  | vstr (s : String)
  | vdict (d : Dict)
deriving DecidableEq

/-- A record as written to the TinyDB `leads` table. -/
abbrev Entry := List (String × PVal)

/-- `dict.get(k)` on a company record: `none` when the key is absent. -/
def dictGet (d : Dict) (k : String) : Option String :=
  List.lookup k d

/-- Field access on a stored lead entry. -/
def entryGet (e : Entry) (k : String) : Option PVal :=
  List.lookup k e

/-- Python's rendering of an `Option`al field inside an f-string:
a missing key prints as `None`. -/
def pyOptStr (o : Option String) : String :=
  match o with
  | some s => s
  | none => "None"

/-- A wall-clock instant as produced by `datetime.now()`. -/
structure DateTime where
  year : Nat
  month : Nat
  day : Nat
  hour : Nat
  minute : Nat
  second : Nat
  microsecond : Nat
deriving DecidableEq

/-- Field bounds of a real `datetime.datetime` value (Python restricts the
year to 1..9999). -/
def DateTime.Valid (d : DateTime) : Prop :=
  d.year < 10000 ∧ 1 ≤ d.month ∧ d.month ≤ 12 ∧ 1 ≤ d.day ∧ d.day ≤ 31 ∧
    d.hour < 24 ∧ d.minute < 60 ∧ d.second < 60 ∧ d.microsecond < 1000000

instance (d : DateTime) : Decidable d.Valid := by
  unfold DateTime.Valid
  infer_instance

/-- Mixed-radix key giving the chronological order of `DateTime` values. -/
def dtKey (d : DateTime) : Nat :=
  (((((d.year * 13 + d.month) * 32 + d.day) * 24 + d.hour) * 60 + d.minute)
      * 60 + d.second) * 1000000 + d.microsecond

/-- Chronological order on clock instants. -/
def dtLe (a b : DateTime) : Prop := dtKey a ≤ dtKey b

instance (a b : DateTime) : Decidable (dtLe a b) := by
  unfold dtLe
  infer_instance

/-- The decimal digit characters used by `isoformat`. -/
def digitChar : Nat → Char
  | 0 => '0'
  | 1 => '1'
  | 2 => '2'
  | 3 => '3'
  | 4 => '4'
  | 5 => '5'
  | 6 => '6'
  | 7 => '7'
  | 8 => '8'
  | 9 => '9'
  | _ => '?'

/-- Numeric value of a decimal digit character. -/
def digitVal (c : Char) : Nat := c.toNat - 48

/-- Two-digit zero-padded decimal rendering (`%02d`). -/
def pad2 (n : Nat) : List Char := [digitChar (n / 10), digitChar (n % 10)]

/-- Four-digit zero-padded decimal rendering (`%04d`). -/
def pad4 (n : Nat) : List Char :=
  [digitChar (n / 1000), digitChar (n / 100 % 10), digitChar (n / 10 % 10),
    digitChar (n % 10)]

/-- Six-digit zero-padded decimal rendering (`%06d`). -/
def pad6 (n : Nat) : List Char :=
  [digitChar (n / 100000), digitChar (n / 10000 % 10), digitChar (n / 1000 % 10),
    digitChar (n / 100 % 10), digitChar (n / 10 % 10), digitChar (n % 10)]

/-- Character stream of `datetime.isoformat()`:
`YYYY-MM-DDTHH:MM:SS` followed by `.ffffff` unless the microsecond field is
zero (Python omits the fractional part in that case). -/
def isoChars (d : DateTime) : List Char :=
  pad4 d.year ++ '-' :: (pad2 d.month ++ '-' :: (pad2 d.day ++ 'T' ::
    (pad2 d.hour ++ ':' :: (pad2 d.minute ++ ':' :: (pad2 d.second ++
      (if d.microsecond = 0 then [] else '.' :: pad6 d.microsecond))))))

/-- `datetime.now().isoformat()` as stored by `save_lead`. -/
def isoformat (d : DateTime) : String := String.mk (isoChars d)

/-- Read exactly two digit characters. -/
def read2 (l : List Char) : Option (Nat × List Char) :=
  match l with
  | a :: b :: r =>
    if a.isDigit && b.isDigit then some (10 * digitVal a + digitVal b, r)
    else none
  | _ => none

/-- Read exactly four digit characters. -/
def read4 (l : List Char) : Option (Nat × List Char) :=
  match l with
  | a :: b :: c :: d :: r =>
    if a.isDigit && b.isDigit && c.isDigit && d.isDigit then
      some (1000 * digitVal a + 100 * digitVal b + 10 * digitVal c + digitVal d, r)
    else none
  | _ => none

/-- Read exactly six digit characters. -/
def read6 (l : List Char) : Option (Nat × List Char) :=
  match l with
  | a :: b :: c :: d :: e :: f :: r =>
    if a.isDigit && b.isDigit && c.isDigit && d.isDigit && e.isDigit && f.isDigit then
      some (100000 * digitVal a + 10000 * digitVal b + 1000 * digitVal c +
        100 * digitVal d + 10 * digitVal e + digitVal f, r)
    else none
  | _ => none

/-- Expect one specific separator character. -/
def expectChar (c : Char) (l : List Char) : Option (List Char) :=
  match l with
  | x :: r => if x == c then some r else none
  | [] => none

/-- ISO-8601 parser for the exact shapes emitted by `datetime.isoformat()`:
`YYYY-MM-DDTHH:MM:SS` or `YYYY-MM-DDTHH:MM:SS.ffffff`. -/
def parseIsoChars (l : List Char) : Option DateTime := do
  let (y, l1) ← read4 l
  let l2 ← expectChar '-' l1
  let (mo, l3) ← read2 l2
  let l4 ← expectChar '-' l3
  let (dy, l5) ← read2 l4
  let l6 ← expectChar 'T' l5
  let (hh, l7) ← read2 l6
  let l8 ← expectChar ':' l7
  let (mi, l9) ← read2 l8
  let l10 ← expectChar ':' l9
  let (ss, l11) ← read2 l10
  match l11 with
  | [] => some ⟨y, mo, dy, hh, mi, ss, 0⟩
  | _ :: _ => do
    let l12 ← expectChar '.' l11
    let (us, l13) ← read6 l12
    match l13 with
    | [] => some ⟨y, mo, dy, hh, mi, ss, us⟩
    | _ :: _ => none

/-- ISO-8601 timestamp parser on strings. -/
def parseIso (s : String) : Option DateTime := parseIsoChars s.data

/-- The keyword-argument payload of the single `tavily_client.search(...)`
call inside `search_tavily_leads`. -/
structure TavilyRequest where
  query : String
  search_depth : String
  include_answer : Bool
  include_raw_content : Bool
  max_results : Nat
deriving DecidableEq

/-- The request object built by `search_tavily_leads` for a keyword and a
country. -/
def mkTavilyRequest (keyword country : String) : TavilyRequest :=
  { query := keyword ++ " companies in " ++ country
    search_depth := "advanced"
    include_answer := true
    include_raw_content := true
    max_results := 10 }

/-- The value `search_tavily_leads` hands back to `main`: on success the
provider payload (its `results` list of company dicts, no `error` key), on
failure the literal `{"results": [], "error": str(e)}` dict. -/
structure SearchOutcome where
  results : List Dict
  error : Option String
deriving DecidableEq

/-- `search_tavily_leads(keyword, country)`.  The Tavily client is the
explicit `provider` argument; `Except.error` covers every exception the
`try` block can see (transport failure, non-2xx status, malformed payload).
The second component records the provider requests that were issued. -/
def search_tavily_leads (keyword : String) (country : String)
    (provider : TavilyRequest → Except String (List Dict)) :
    SearchOutcome × List TavilyRequest :=
  let req := mkTavilyRequest keyword country
  match provider req with
  | Except.ok rs => ({ results := rs, error := none }, [req])
  | Except.error e => ({ results := [], error := some e }, [req])

/-- JSON string escaping for the characters `json.dumps` must escape in the
inputs we model (quote and backslash). -/
def escapeChar (c : Char) : List Char :=
  if c = '"' ∨ c = '\\' then ['\\', c] else [c]

/-- A JSON string literal. -/
def quoteStr (s : String) : List Char :=
  '"' :: s.data.flatMap escapeChar ++ ['"']

/-- One `"key": "value"` pair of a serialized company dict. -/
def dumpPair (p : String × String) : List Char :=
  quoteStr p.1 ++ ':' :: ' ' :: quoteStr p.2

/-- Comma-separated join of serialized fragments. -/
def joinComma : List (List Char) → List Char
  | [] => []
  | [x] => x
  | x :: xs => x ++ (", ").data ++ joinComma xs

/-- Serialization of one company dict (models `json.dumps` on a result
object; whitespace layout simplified). -/
def dumpDict (d : Dict) : List Char :=
  '\x7b' :: joinComma (d.map dumpPair) ++ ['\x7d']

/-- Serialization of the whole `results` list, as interpolated into the
summarization prompt by `json.dumps(results.get('results', []), indent=2)`
(whitespace layout simplified). -/
def jsonDumpResults (rs : List Dict) : List Char :=
  '[' :: joinComma (rs.map dumpDict) ++ [']']

/-- Text of the summarization prompt before the interpolated results. -/
def summaryPromptPre : String :=
  "\n        Analyze these company search results and provide a concise summary for each company:\n        \n        "

/-- Text of the summarization prompt after the interpolated results. -/
def summaryPromptPost : String :=
  "\n        \n        For each company, provide:\n        1. Company name\n        2. Key business areas\n        3. Potential opportunity\n        4. Relevance score analysis\n        \n        Format as a clear, readable markdown list.\n        "

/-- The single prompt `summarize_leads` builds: all candidates of the search
are serialized together into one payload. -/
def summaryPrompt (rs : List Dict) : String :=
  summaryPromptPre ++ String.mk (jsonDumpResults rs) ++ summaryPromptPost

/-- `summarize_leads(results)`.  The OpenAI chat-completion client is the
explicit `completion` argument.  Returns the completion content together with
the list of completion prompts that were submitted. -/
def summarize_leads (outcome : SearchOutcome) (completion : String → String) :
    String × List String :=
  let p := summaryPrompt outcome.results
  (completion p, [p])

/-- The prompt of `generate_outreach_email` (f-string with the company's
`title`, `content` and `url` fields interpolated; a missing key prints as
`None`). -/
def outreachPrompt (company : Dict) : String :=
  "\n        Generate a personalized cold outreach email from \"blueoceansteels\" based on the given company information:\n        \n        Company: "
    ++ pyOptStr (dictGet company "title")
    ++ "\n        Description: " ++ pyOptStr (dictGet company "content")
    ++ "\n        URL: " ++ pyOptStr (dictGet company "url")
    ++ "\n        \n        Requirements:\n        1. Keep it under 150 words\n        2. Focus on value proposition\n        3. Include a clear call to action\n        4. Be professional but conversational\n        5. Reference specific company details\n        \n        Format the email with subject line and body.\n        "

/-- `generate_outreach_email(company_data)` with the completion client
explicit. -/
def generate_outreach_email (company : Dict) (completion : String → String) : String :=
  completion (outreachPrompt company)

/-- The entry `save_lead` builds: `{'details': lead_data,
'timestamp': datetime.now().isoformat()}`. -/
def mkLeadEntry (now : DateTime) (lead_data : Dict) : Entry :=
  [("details", PVal.vdict lead_data), ("timestamp", PVal.vstr (isoformat now))]

/-- `save_lead(lead_data)`: builds the entry, appends it to the `leads`
table (`leads_table.insert`), and returns the entry.  The clock read by
`datetime.now()` is the explicit `now` argument; the table is threaded
explicitly. -/
def save_lead (now : DateTime) (lead_data : Dict) (table : List Entry) :
    Entry × List Entry :=
  (mkLeadEntry now lead_data, table ++ [mkLeadEntry now lead_data])

/-- `leads_table.all()`: every record in insertion order. -/
def listAll (table : List Entry) : List Entry := table

/-- Python dict assignment `m[k] = v`: overwrite the binding when the key
exists, append it otherwise. -/
def insertKV (m : List (String × String)) (k v : String) : List (String × String) :=
  if m.any (fun p => p.1 == k) then
    m.map (fun p => if p.1 == k then (k, v) else p)
  else m ++ [(k, v)]

/-- Python `set.add`. -/
def insertSet (s : List String) (k : String) : List String :=
  if s.contains k then s else s ++ [k]

/-- The Streamlit session state of `main` (`results`, `generated_emails`,
`saved_leads`) together with the module-global TinyDB `leads` table. -/
structure Session where
  results : Option SearchOutcome
  generated_emails : List (String × String)
  saved_leads : List String
  table : List Entry
deriving DecidableEq

/-- `generate_email_callback(company, key)` inside `main`: stores the
generated email in `st.session_state.generated_emails[key]`. -/
def generate_email_callback (company : Dict) (key : String)
    (completion : String → String) (s : Session) : Session :=
  { s with generated_emails :=
      insertKV s.generated_emails key (generate_outreach_email company completion) }

/-- `save_lead_callback(company, key)` inside `main`: calls `save_lead` and
marks the key in `st.session_state.saved_leads`. -/
def save_lead_callback (now : DateTime) (company : Dict) (key : String)
    (s : Session) : Session :=
  { s with
      table := (save_lead now company s.table).2
      saved_leads := insertSet s.saved_leads key }

/-- The `Clear All` button handler of `main`: `leads_table.truncate()`,
`generated_emails.clear()`, `saved_leads.clear()`, `results = None`. -/
def clear_all (_s : Session) : Session :=
  { results := none, generated_emails := [], saved_leads := [], table := [] }

/-- Outcome of one click of the `Find Leads` button. -/
structure FindLeadsResult where
  session : Session
  uiErrors : List String
  connectorCalls : List TavilyRequest
  summaryShown : Option String
  llmPrompts : List String

/-- The `Find Leads` button branch of `main`: rejects an empty keyword with
`st.error(...)` before touching the connector; otherwise runs
`search_tavily_leads`, stores the outcome in session state, and — when the
`results` list is non-empty (Python truthiness) — calls `summarize_leads`
once and displays its summary. -/
def find_leads_clicked (keyword country : String)
    (provider : TavilyRequest → Except String (List Dict))
    (completion : String → String) (s : Session) : FindLeadsResult :=
  if keyword = "" then
    { session := s
      uiErrors := ["Please enter a keyword to search"]
      connectorCalls := []
      summaryShown := none
      llmPrompts := [] }
  else
    let out := search_tavily_leads keyword country provider
    let s1 : Session := { s with results := some out.1 }
    match out.1.results with
    | [] =>
      { session := s1, uiErrors := [], connectorCalls := out.2
        summaryShown := none, llmPrompts := [] }
    | _ :: _ =>
      let sp := summarize_leads out.1 completion
      { session := s1, uiErrors := [], connectorCalls := out.2
        summaryShown := some sp.1, llmPrompts := sp.2 }

/-- Category labels of the classification mode. -/
inductive Category where
  | HOT
  | WARM
  | COLD
deriving DecidableEq

/-- The three-field structure a classification completion must parse into. -/
structure Classification where
  category : Category
  explanation : String
  outreach_message : String
deriving DecidableEq

/-- Result of `classify`: either a full classification or the
`MalformedCompletion` failure, never a partial value. -/
inductive ClassifyOutcome where
  | ok (c : Classification)
  | malformedCompletion
deriving DecidableEq

/-- Decode of the `category` enum field. -/
def parseCategory (s : String) : Option Category :=
  if s = "HOT" then some Category.HOT
  else if s = "WARM" then some Category.WARM
  else if s = "COLD" then some Category.COLD
  else none

/-- Modelled from the spec: the profile-classification entry point
`classify` belongs to a repository variant that is not under `src/` (only
`openailead.py` is).  Per the spec, `classify` requires the completion
response to be parseable as the three-field structure
`{category, explanation, outreach_message}`; if parsing fails — in
particular when the `category` field is missing — the operation fails with a
`MalformedCompletion` condition and no partial result is returned. -/
def classify (completionFields : List (String × String)) : ClassifyOutcome :=
  match List.lookup "category" completionFields,
      List.lookup "explanation" completionFields,
      List.lookup "outreach_message" completionFields with
  | some c, some e, some o =>
    match parseCategory c with
    | some cat => ClassifyOutcome.ok ⟨cat, e, o⟩
    | none => ClassifyOutcome.malformedCompletion
  | _, _, _ => ClassifyOutcome.malformedCompletion

/-- What running the module as a script does. -/
inductive EntryOutcome where
  | ranMain
  | nameError (n : String)
deriving DecidableEq

/-- Every name bound at the top level of `openailead.py` (imports, module
globals, function defs). -/
def module_top_level_names : List String :=
  ["st", "os", "logging", "datetime", "TinyDB", "TavilyClient", "OpenAI",
    "json", "logger", "db", "leads_table", "tavily_client", "openai_client",
    "search_tavily_leads", "summarize_leads", "generate_outreach_email",
    "save_lead", "main"]

/-- The `if __name__ == "__main__":` guard: it evaluates
`check_api_keys()`, whose name must resolve against the module's top-level
bindings before anything else can run; an unresolved name raises
`NameError`. -/
def script_entry : EntryOutcome :=
  if module_top_level_names.contains "check_api_keys" then EntryOutcome.ranMain
  else EntryOutcome.nameError "check_api_keys"

/-- Concrete candidate record (spec scenario: keyword "steel exporters",
region "India", first candidate, score 0.91). -/
def exLead1 : Dict :=
  [("title", "Tata Steel"), ("url", "https://tatasteel.example"),
    ("content", "Steel exporter based in India"), ("score", "0.91")]

/-- Concrete candidate record (second candidate of the scenario, score
0.77). -/
def exLead2 : Dict :=
  [("title", "JSW Steel"), ("url", "https://jsw.example"),
    ("content", "Steel manufacturer and exporter"), ("score", "0.77")]

/-- A concrete clock instant (with a fractional second). -/
def exT1 : DateTime := ⟨2024, 5, 1, 12, 0, 0, 123456⟩

/-- A later concrete clock instant (whole second). -/
def exT2 : DateTime := ⟨2024, 5, 1, 12, 0, 5, 0⟩

/-- The freshly initialized session state of `main`. -/
def exSession0 : Session := ⟨none, [], [], []⟩

/-- A concrete completion client. -/
def exCompletion : String → String := fun _ => "Subject: Partnership opportunity"

/-- A concrete completion client for summaries. -/
def exSummaryCompletion : String → String := fun _ => "- Tata Steel: exporter"

/-- A Tavily client that returns the two scenario candidates. -/
def exProviderOk : TavilyRequest → Except String (List Dict) :=
  fun _ => Except.ok [exLead1, exLead2]

/-- A Tavily client whose call raises (transport failure). -/
def exProviderDown : TavilyRequest → Except String (List Dict) :=
  fun _ => Except.error "connection timed out"

theorem digitChar_isDigit (k : Nat) (h : k < 10) : (digitChar k).isDigit = true := by
  interval_cases k <;> decide

theorem digitVal_digitChar (k : Nat) (h : k < 10) : digitVal (digitChar k) = k := by
  interval_cases k <;> decide

theorem read2_pad2 (n : Nat) (h : n < 100) (r : List Char) :
    read2 (pad2 n ++ r) = some (n, r) := by
  have h1 : n / 10 < 10 := by omega
  have h2 : n % 10 < 10 := by omega
  simp [pad2, read2, digitChar_isDigit _ h1, digitChar_isDigit _ h2,
    digitVal_digitChar _ h1, digitVal_digitChar _ h2]
  omega

theorem read4_pad4 (n : Nat) (h : n < 10000) (r : List Char) :
    read4 (pad4 n ++ r) = some (n, r) := by
  have h1 : n / 1000 < 10 := by omega
  have h2 : n / 100 % 10 < 10 := by omega
  have h3 : n / 10 % 10 < 10 := by omega
  have h4 : n % 10 < 10 := by omega
  simp [pad4, read4, digitChar_isDigit _ h1, digitChar_isDigit _ h2,
    digitChar_isDigit _ h3, digitChar_isDigit _ h4,
    digitVal_digitChar _ h1, digitVal_digitChar _ h2,
    digitVal_digitChar _ h3, digitVal_digitChar _ h4]
  omega

theorem read6_pad6 (n : Nat) (h : n < 1000000) (r : List Char) :
    read6 (pad6 n ++ r) = some (n, r) := by
  have h1 : n / 100000 < 10 := by omega
  have h2 : n / 10000 % 10 < 10 := by omega
  have h3 : n / 1000 % 10 < 10 := by omega
  have h4 : n / 100 % 10 < 10 := by omega
  have h5 : n / 10 % 10 < 10 := by omega
  have h6 : n % 10 < 10 := by omega
  simp [pad6, read6, digitChar_isDigit _ h1, digitChar_isDigit _ h2,
    digitChar_isDigit _ h3, digitChar_isDigit _ h4, digitChar_isDigit _ h5,
    digitChar_isDigit _ h6, digitVal_digitChar _ h1, digitVal_digitChar _ h2,
    digitVal_digitChar _ h3, digitVal_digitChar _ h4, digitVal_digitChar _ h5,
    digitVal_digitChar _ h6]
  omega

theorem read2_pad2_nil (n : Nat) (h : n < 100) : read2 (pad2 n) = some (n, []) := by
  have := read2_pad2 n h []
  simpa using this

theorem read6_pad6_nil (n : Nat) (h : n < 1000000) : read6 (pad6 n) = some (n, []) := by
  have := read6_pad6 n h []
  simpa using this

theorem expectChar_cons_self (c : Char) (l : List Char) :
    expectChar c (c :: l) = some l := by
  simp [expectChar]

set_option maxHeartbeats 1000000 in
/-- `datetime.isoformat()` round-trips through the ISO-8601 parser: the
stored timestamp is parseable and denotes exactly the clock instant that was
assigned at insert time. -/
theorem parseIso_isoformat (d : DateTime) (hv : d.Valid) :
    parseIso (isoformat d) = some d := by
  obtain ⟨y, mo, dy, hh, mi, ss, us⟩ := d
  simp only [DateTime.Valid] at hv
  obtain ⟨hy, hmo1, hmo2, hdy1, hdy2, hhh, hmi2, hss, hus⟩ := hv
  show parseIsoChars (isoChars ⟨y, mo, dy, hh, mi, ss, us⟩)
      = some ⟨y, mo, dy, hh, mi, ss, us⟩
  have hy4 : y < 10000 := hy
  have hmo : mo < 100 := by omega
  have hdy : dy < 100 := by omega
  have hhh2 : hh < 100 := by omega
  have hmi : mi < 100 := by omega
  have hss2 : ss < 100 := by omega
  by_cases h0 : us = 0
  · subst h0
    rw [show isoChars ⟨y, mo, dy, hh, mi, ss, 0⟩
        = pad4 y ++ '-' :: (pad2 mo ++ '-' :: (pad2 dy ++ 'T' ::
          (pad2 hh ++ ':' :: (pad2 mi ++ ':' :: pad2 ss)))) from by
      simp [isoChars]]
    simp only [parseIsoChars,
      read4_pad4 y hy4, read2_pad2 mo hmo,
      read2_pad2 dy hdy, read2_pad2 hh hhh2,
      read2_pad2 mi hmi, read2_pad2_nil ss hss2,
      expectChar_cons_self, Option.bind_eq_bind, Option.some_bind]
  · rw [show isoChars ⟨y, mo, dy, hh, mi, ss, us⟩
        = pad4 y ++ '-' :: (pad2 mo ++ '-' :: (pad2 dy ++ 'T' ::
          (pad2 hh ++ ':' :: (pad2 mi ++ ':' :: (pad2 ss ++ '.' :: pad6 us))))) from by
      simp [isoChars, if_neg h0]]
    simp only [parseIsoChars,
      read4_pad4 y hy4, read2_pad2 mo hmo,
      read2_pad2 dy hdy, read2_pad2 hh hhh2,
      read2_pad2 mi hmi, read2_pad2 ss hss2,
      read6_pad6_nil us hus,
      expectChar_cons_self, Option.bind_eq_bind, Option.some_bind]

/-- The stored timestamp string is never empty. -/
theorem isoformat_ne_empty (d : DateTime) : isoformat d ≠ "" := by
  intro h
  have h2 : isoChars d = [] := congrArg String.data h
  simp [isoChars, pad4] at h2

theorem chunk_append_left {α : Type} (l : List α) {x m : List α}
    (h : x <:+: m) : x <:+: l ++ m := by
  obtain ⟨s, t, rfl⟩ := h
  exact ⟨l ++ s, t, by simp [List.append_assoc]⟩

theorem chunk_append_right {α : Type} (r : List α) {x m : List α}
    (h : x <:+: m) : x <:+: m ++ r := by
  obtain ⟨s, t, rfl⟩ := h
  exact ⟨s, t ++ r, by simp [List.append_assoc]⟩

theorem chunk_cons {α : Type} (a : α) {x m : List α}
    (h : x <:+: m) : x <:+: a :: m := by
  have h2 := chunk_append_left [a] h
  simpa using h2

theorem chunk_joinComma {x : List Char} :
    ∀ (L : List (List Char)), x ∈ L → x <:+: joinComma L := by
  intro L
  induction L with
  | nil => intro h; cases h
  | cons y ys ih =>
    intro hx
    cases ys with
    | nil =>
      have hxy : x = y := by simpa using hx
      subst hxy
      exact ⟨[], [], by simp [joinComma]⟩
    | cons z zs =>
      rcases List.mem_cons.mp hx with h1 | h2
      · subst h1
        exact ⟨[], (", ").data ++ joinComma (z :: zs), by
          simp [joinComma, List.append_assoc]⟩
      · obtain ⟨s, t, hst⟩ := ih h2
        exact ⟨y ++ (", ").data ++ s, t, by
          simp [joinComma, hst, List.append_assoc]⟩

theorem data_append (s t : String) : (s ++ t).data = s.data ++ t.data := by
  cases s
  cases t
  rfl

/-- Every candidate of a search is serialized inside the single
summarization prompt. -/
theorem dump_chunk_of_prompt (c : Dict) (rs : List Dict) (h : c ∈ rs) :
    dumpDict c <:+: (summaryPrompt rs).data := by
  have h1 : dumpDict c <:+: jsonDumpResults rs := by
    unfold jsonDumpResults
    apply chunk_cons
    apply chunk_append_right
    exact chunk_joinComma _ (List.mem_map_of_mem dumpDict h)
  unfold summaryPrompt
  rw [data_append, data_append]
  apply chunk_append_right
  apply chunk_append_left
  exact h1

/-- C1: for every keyword and region, if the outbound provider call inside
`search_tavily_leads` raises any error (transport failure, non-success
status, malformed payload), the function returns a value containing an empty
candidate list together with the captured error description string; no
exception propagates — the failure is an ordinary return value. -/
theorem C1_connector_error_is_value (keyword country errMsg : String)
    (provider : TavilyRequest → Except String (List Dict))
    (herr : provider (mkTavilyRequest keyword country) = Except.error errMsg) :
    (search_tavily_leads keyword country provider).1
      = { results := [], error := some errMsg } := by
  simp [search_tavily_leads, herr]

theorem C1_witness :
    (search_tavily_leads "steel exporters" "India" exProviderDown).1
      = { results := [], error := some "connection timed out" } :=
  C1_connector_error_is_value "steel exporters" "India" "connection timed out"
    exProviderDown rfl

/-- C3: the `Clear All` handler, from any session state, empties the record
store (a subsequent `listAll` yields the empty sequence) and resets the
in-memory session state — cached results, generated emails, saved-lead
markers — to the idle state. -/
theorem C3_clear_resets (s : Session) :
    listAll (clear_all s).table = []
    ∧ (clear_all s).results = none
    ∧ (clear_all s).generated_emails = []
    ∧ (clear_all s).saved_leads = [] :=
  ⟨rfl, rfl, rfl, rfl⟩

/-- C4: saving the same candidate twice (two `save_lead_callback`
invocations) always appends two additional records to the store — no
deduplication, no overwrite, no skip; the table grows by exactly two
entries. -/
theorem C4_save_never_dedups (s : Session) (company : Dict) (k1 k2 : String)
    (t1 t2 : DateTime) :
    (save_lead_callback t2 company k2 (save_lead_callback t1 company k1 s)).table
      = s.table ++ [mkLeadEntry t1 company, mkLeadEntry t2 company]
    ∧ (save_lead_callback t2 company k2 (save_lead_callback t1 company k1 s)).table.length
      = s.table.length + 2 := by
  constructor
  · simp [save_lead_callback, save_lead]
  · simp [save_lead_callback, save_lead]

/-- C5: triggering a search with an empty keyword makes the orchestrator
emit the user-facing validation error and return before any network call:
the connector is never invoked and the session is unchanged. -/
theorem C5_empty_keyword_rejected (keyword country : String)
    (provider : TavilyRequest → Except String (List Dict))
    (completion : String → String) (s : Session) (hk : keyword = "") :
    (find_leads_clicked keyword country provider completion s).connectorCalls = []
    ∧ (find_leads_clicked keyword country provider completion s).uiErrors
        = ["Please enter a keyword to search"]
    ∧ (find_leads_clicked keyword country provider completion s).session = s := by
  subst hk
  exact ⟨rfl, rfl, rfl⟩

theorem C5_witness :
    (find_leads_clicked "" "India" exProviderOk exSummaryCompletion exSession0).connectorCalls = []
    ∧ (find_leads_clicked "" "India" exProviderOk exSummaryCompletion exSession0).uiErrors
        = ["Please enter a keyword to search"]
    ∧ (find_leads_clicked "" "India" exProviderOk exSummaryCompletion exSession0).session
        = exSession0 :=
  C5_empty_keyword_rejected "" "India" exProviderOk exSummaryCompletion exSession0 rfl

/-- C7: for every keyword and region, `search_tavily_leads` issues exactly
one provider request, whose query string is `"{keyword} companies in
{region}"`, with advanced search depth and a maximum of 10 results. -/
theorem C7_single_request (keyword country : String)
    (provider : TavilyRequest → Except String (List Dict)) :
    (search_tavily_leads keyword country provider).2
      = [mkTavilyRequest keyword country]
    ∧ (mkTavilyRequest keyword country).query
      = keyword ++ " companies in " ++ country
    ∧ (mkTavilyRequest keyword country).search_depth = "advanced"
    ∧ (mkTavilyRequest keyword country).max_results = 10 := by
  refine ⟨?_, rfl, rfl, rfl⟩
  cases h : provider (mkTavilyRequest keyword country) <;>
    simp [search_tavily_leads, h]

/-- C9: `classify` applied to a completion response missing the `category`
field fails with the `MalformedCompletion` condition and returns no partial
or guessed result. -/
theorem C9_classify_missing_category (fields : List (String × String))
    (h : List.lookup "category" fields = none) :
    classify fields = ClassifyOutcome.malformedCompletion := by
  simp [classify, h]

theorem C9_witness :
    classify [("explanation", "strong fit"), ("outreach_message", "Hi there")]
      = ClassifyOutcome.malformedCompletion :=
  C9_classify_missing_category
    [("explanation", "strong fit"), ("outreach_message", "Hi there")] (by decide)

/-- C10: the `if __name__ == "__main__":` guard calls `check_api_keys`,
which is bound nowhere among the module's top-level names, so every
execution of the module as a script raises an unhandled `NameError` before
`main` ever runs. -/
theorem C10_entry_guard_name_error :
    script_entry = EntryOutcome.nameError "check_api_keys" := by
  decide

/-- C2: `save_lead` assigns a non-empty, parseable ISO-8601 timestamp at
insert time, appends the entry to the table and returns the stored form;
after a second insert, `listAll` ends with the second entry, whose `details`
field equals the inserted record, and — the clock being non-decreasing in
single-threaded use — its timestamp denotes an instant no earlier than that
of the previous insert. -/
theorem C2_insert_then_listAll (table : List Entry) (lead1 lead2 : Dict)
    (t1 t2 : DateTime) (h1 : t1.Valid) (h2 : t2.Valid) (hmono : dtLe t1 t2) :
    (save_lead t2 lead2 (save_lead t1 lead1 table).2).1 = mkLeadEntry t2 lead2
    ∧ (save_lead t2 lead2 (save_lead t1 lead1 table).2).2
        = (save_lead t1 lead1 table).2 ++ [mkLeadEntry t2 lead2]
    ∧ (listAll (save_lead t2 lead2 (save_lead t1 lead1 table).2).2).getLast?
        = some (mkLeadEntry t2 lead2)
    ∧ entryGet (mkLeadEntry t2 lead2) "details" = some (PVal.vdict lead2)
    ∧ entryGet (mkLeadEntry t2 lead2) "timestamp"
        = some (PVal.vstr (isoformat t2))
    ∧ isoformat t2 ≠ ""
    ∧ parseIso (isoformat t2) = some t2
    ∧ parseIso (isoformat t1) = some t1
    ∧ dtLe t1 t2 := by
  refine ⟨rfl, rfl, ?_, rfl, rfl, isoformat_ne_empty t2,
    parseIso_isoformat t2 h2, parseIso_isoformat t1 h1, hmono⟩
  simp [listAll, save_lead]

theorem C2_witness :
    (save_lead exT2 exLead2 (save_lead exT1 exLead1 []).2).1 = mkLeadEntry exT2 exLead2
    ∧ (save_lead exT2 exLead2 (save_lead exT1 exLead1 []).2).2
        = (save_lead exT1 exLead1 []).2 ++ [mkLeadEntry exT2 exLead2]
    ∧ (listAll (save_lead exT2 exLead2 (save_lead exT1 exLead1 []).2).2).getLast?
        = some (mkLeadEntry exT2 exLead2)
    ∧ entryGet (mkLeadEntry exT2 exLead2) "details" = some (PVal.vdict exLead2)
    ∧ entryGet (mkLeadEntry exT2 exLead2) "timestamp"
        = some (PVal.vstr (isoformat exT2))
    ∧ isoformat exT2 ≠ ""
    ∧ parseIso (isoformat exT2) = some exT2
    ∧ parseIso (isoformat exT1) = some exT1
    ∧ dtLe exT1 exT2 :=
  C2_insert_then_listAll [] exLead1 exLead2 exT1 exT2 (by decide) (by decide)
    (by decide)

/-- C6: for a search returning a non-empty candidate list, `summarize_leads`
is invoked exactly once, with all candidates serialized together into the
single prompt payload (each candidate's serialization occurs inside that one
prompt), and it returns a single string which is displayed. -/
theorem C6_summarize_called_once (keyword country : String)
    (provider : TavilyRequest → Except String (List Dict))
    (completion : String → String) (s : Session) (rs : List Dict)
    (hk : keyword ≠ "")
    (hp : provider (mkTavilyRequest keyword country) = Except.ok rs)
    (hrs : rs ≠ []) :
    (find_leads_clicked keyword country provider completion s).llmPrompts
      = [summaryPrompt rs]
    ∧ (find_leads_clicked keyword country provider completion s).summaryShown
      = some (completion (summaryPrompt rs))
    ∧ ∀ c ∈ rs, dumpDict c <:+: (summaryPrompt rs).data := by
  cases rs with
  | nil => exact absurd rfl hrs
  | cons r0 rtail =>
    refine ⟨?_, ?_, fun c hc => dump_chunk_of_prompt c _ hc⟩
    · simp [find_leads_clicked, hk, search_tavily_leads, hp, summarize_leads]
    · simp [find_leads_clicked, hk, search_tavily_leads, hp, summarize_leads]

theorem C6_witness :
    (find_leads_clicked "steel exporters" "India" exProviderOk
        exSummaryCompletion exSession0).llmPrompts
      = [summaryPrompt [exLead1, exLead2]]
    ∧ (find_leads_clicked "steel exporters" "India" exProviderOk
        exSummaryCompletion exSession0).summaryShown
      = some (exSummaryCompletion (summaryPrompt [exLead1, exLead2]))
    ∧ ∀ c ∈ [exLead1, exLead2],
        dumpDict c <:+: (summaryPrompt [exLead1, exLead2]).data :=
  C6_summarize_called_once "steel exporters" "India" exProviderOk
    exSummaryCompletion exSession0 [exLead1, exLead2] (by decide) rfl (by decide)

/-- C8 counterexample: an outreach email generated for a candidate before
that candidate is saved is NOT embedded in the stored record — the entry
written by `save_lead` has no `analysis` field at all, refuting the claim at
this concrete input. -/
theorem C8_counterexample :
    List.lookup "email_0"
        (generate_email_callback exLead1 "email_0" exCompletion exSession0).generated_emails
      = some (generate_outreach_email exLead1 exCompletion)
    ∧ (save_lead_callback exT1 exLead1 "save_0"
          (generate_email_callback exLead1 "email_0" exCompletion exSession0)).table.getLast?
      = some (mkLeadEntry exT1 exLead1)
    ∧ entryGet (mkLeadEntry exT1 exLead1) "analysis" = none :=
  ⟨rfl, rfl, rfl⟩

/-- C8 (amended): the record written by `save_lead` carries exactly the
fields `details` and `timestamp`; an enrichment generated before the save is
not embedded in the stored record (its `analysis` lookup is `none`) and
survives only in the session's generated-emails cache, which the save leaves
untouched. -/
theorem C8_amended_save_excludes_analysis (s : Session) (company : Dict)
    (ekey skey em : String) (t : DateTime)
    (hgen : List.lookup ekey s.generated_emails = some em) :
    (save_lead_callback t company skey s).table.getLast?
      = some (mkLeadEntry t company)
    ∧ (mkLeadEntry t company).map Prod.fst = ["details", "timestamp"]
    ∧ entryGet (mkLeadEntry t company) "analysis" = none
    ∧ List.lookup ekey (save_lead_callback t company skey s).generated_emails
      = some em := by
  refine ⟨?_, rfl, rfl, ?_⟩
  · simp [save_lead_callback, save_lead]
  · simpa [save_lead_callback] using hgen

theorem C8_witness :
    (save_lead_callback exT2 exLead2 "save_1"
        ⟨none, [("email_1", "Subject: hello")], [], []⟩).table.getLast?
      = some (mkLeadEntry exT2 exLead2)
    ∧ (mkLeadEntry exT2 exLead2).map Prod.fst = ["details", "timestamp"]
    ∧ entryGet (mkLeadEntry exT2 exLead2) "analysis" = none
    ∧ List.lookup "email_1"
        (save_lead_callback exT2 exLead2 "save_1"
          ⟨none, [("email_1", "Subject: hello")], [], []⟩).generated_emails
      = some "Subject: hello" :=
  C8_amended_save_excludes_analysis
    ⟨none, [("email_1", "Subject: hello")], [], []⟩ exLead2 "email_1" "save_1"
    "Subject: hello" exT2 (by decide)
